import Mathlib

/-!
Shallow embedding of `src/database/connection_pool.py` (class `ConnectionPool`).

Modelling decisions, all read off the source:

* A connection handle (`pymysql.Connection`) is opaque to the pool except for
  its `open` attribute and the outcome of backend calls made on it, so a
  handle is an id plus an `isOpen` flag.
* `Queue(maxsize=max_size)` is a bounded FIFO: we model it as a `List Conn`
  whose head is the oldest element; `get` pops the head, `put` appends at the
  back and, as in Python's `queue.Queue`, blocks when the queue already holds
  `maxsize` elements (with `maxsize = 0` meaning unbounded).  A blocking `put`
  is modelled as `none`.
* `self._active_connections` is a Python `int` and the code decrements it
  without a lower bound, so it is an `Int`.
* Every public method's whole body runs inside `with self._lock:` (lines
  75, 113, 134, 147 of the source).  Operations are therefore serialized:
  while one call runs - including `get_connection`'s polling wait loop and
  the backend I/O - no other call can touch `_pool` or `_active_connections`.
  Consequently the queue observed by the wait loop's polls is frozen for the
  duration of the call, which the embedding reflects by having the loop poll
  an unchanging queue.
* Backend effects (`pymysql.connect`, the `SELECT 1` probe, `conn.close`) are
  environment events; each operation takes the environment's answers as
  explicit parameters that are consulted exactly where the source performs
  the call.  Results carry instrumentation counters `opens` (calls to
  `_create_connection`, i.e. backend opens) and `probes` (liveness probes
  executed), incremented exactly at the source lines performing those calls.
* Real time is modelled in ticks of the wait loop's `0.1 s` poll timeout: a
  call `get_connection(timeout=T)` corresponds to a tick budget of roughly
  `10*T`, each failed poll consumes one tick, and the elapsed time at which
  the method returns is reported in the `elapsed` field.
-/

/-- A backend connection handle: opaque except for identity and the
`open` attribute (`conn.open` in the source, `isOpen()` in the spec). -/
structure Conn where
  id : Nat
  isOpen : Bool
deriving DecidableEq, Repr

/-- The two exceptions `get_connection` can raise (source lines 92 and 104):
`ConnectionError` when on-demand creation fails, `TimeoutError` when the
wait for a freed connection expires. -/
inductive PoolError where
  | creationError
  | timeoutError
deriving DecidableEq, Repr

/-- Pool state: `max_size`, the bounded FIFO `_pool` of idle handles
(head = oldest), and the checked-out counter `_active_connections`
(source lines 30-32). -/
structure ConnectionPool where
  max_size : Nat
  _pool : List Conn
  _active_connections : Int
deriving DecidableEq, Repr

/-- `queue.Queue.put` on a queue constructed with `maxsize`: appends at the
back; blocks (modelled as `none`) when `0 < maxsize` and the queue is full.
Python treats `maxsize <= 0` as unbounded. -/
def queue_put (maxsize : Nat) (q : List Conn) (c : Conn) : Option (List Conn) :=
  if 0 < maxsize ∧ maxsize ≤ q.length then none else some (q ++ [c])

/-- `ConnectionPool._initialize_pool` (source lines 38-47): attempts
`min 3 max_size` backend opens, enqueueing each success and swallowing
each failure, so the warm set may hold fewer handles than the target.
`create i` is the environment's answer to the `i`-th open attempt. -/
def _init_pool (max_size : Nat) (create : Nat → Option Conn) : List Conn :=
  (List.range (min 3 max_size)).filterMap create

/-- `ConnectionPool.__init__` (source lines 21-36): records `max_size`
without any validation, starts `_active_connections` at 0, and runs the
warm-up.  Construction never fails. -/
def ConnectionPool.init (max_size : Nat) (create : Nat → Option Conn) : ConnectionPool :=
  { max_size := max_size
    _pool := _init_pool max_size create
    _active_connections := 0 }

deriving instance DecidableEq for Except

/-- Result of `get_connection`: the returned handle or raised exception, the
pool state after the call, and instrumentation: `opens` backend open
attempts, `probes` liveness probes (the source performs none here), and
`elapsed` wait-loop ticks consumed before returning. -/
structure AcqResult where
  outcome : Except PoolError Conn
  pool : ConnectionPool
  opens : Nat
  probes : Nat
  elapsed : Nat
deriving DecidableEq, Repr

/-- The polling wait of `get_connection` (source lines 95-102): while time
remains, try `self._pool.get(timeout=0.1)`; each failed poll consumes one
0.1 s tick.  The queue polled never changes during the loop because the
lock is held for the whole method body, so the loop carries a fixed
`queue`.  Returns the popped handle and remaining queue, or `none` after
the tick budget is exhausted, together with the ticks consumed. -/
def wait_loop (queue : List Conn) : Nat → Option (Conn × List Conn) × Nat
  | 0 => (none, 0)
  | n + 1 =>
    match queue with
    | c :: rest => (some (c, rest), 0)
    | [] =>
      match wait_loop [] n with
      | (r, e) => (r, e + 1)

/-- `ConnectionPool.get_connection` (source lines 62-104), whole body under
the lock.  Step 1: if `_pool` is non-empty, pop the oldest handle and
increment `_active_connections` - no health check, no backend call.
Step 2: else if `_active_connections < max_size`, attempt one backend open
(`create` is the environment's answer): success increments the counter and
returns the fresh handle; failure raises `ConnectionError` at once.
Step 3: else poll the (frozen) queue until `timeoutTicks` ticks have
elapsed, then raise `TimeoutError` leaving the state untouched. -/
def get_connection (p : ConnectionPool) (create : Option Conn) (timeoutTicks : Nat) :
    AcqResult :=
  match p._pool with
  | c :: rest =>
    { outcome := .ok c
      pool := { p with _pool := rest, _active_connections := p._active_connections + 1 }
      opens := 0, probes := 0, elapsed := 0 }
  | [] =>
    if p._active_connections < (p.max_size : Int) then
      match create with
      | some c =>
        { outcome := .ok c
          pool := { p with _active_connections := p._active_connections + 1 }
          opens := 1, probes := 0, elapsed := 0 }
      | none =>
        { outcome := .error .creationError, pool := p
          opens := 1, probes := 0, elapsed := 0 }
    else
      match wait_loop [] timeoutTicks with
      | (some (c, rest), e) =>
        { outcome := .ok c
          pool := { p with _pool := rest, _active_connections := p._active_connections + 1 }
          opens := 0, probes := 0, elapsed := e }
      | (none, e) =>
        { outcome := .error .timeoutError, pool := p
          opens := 0, probes := 0, elapsed := e }

/-- Result of `return_connection`: the pool state after the call plus the
backend-open and probe counters.  The method itself returns `None` in
Python and raises nothing; a blocked `Queue.put` is the only way it could
fail to return, modelled as `none`. -/
structure RelResult where
  pool : ConnectionPool
  opens : Nat
  probes : Nat
deriving DecidableEq, Repr

/-- `ConnectionPool.return_connection` (source lines 106-130), under the
lock.  If `conn.open`: run the `SELECT 1` probe (`probeOk` is the
environment's answer); on success enqueue `conn`; on failure attempt one
replacement open (`replacement`), enqueueing it on success, and on failure
decrement `_active_connections` and return with nothing enqueued.  If
`conn.open` is false: decrement `_active_connections` and return.  Note
the successful-probe path never decrements `_active_connections`. -/
def return_connection (p : ConnectionPool) (conn : Conn) (probeOk : Bool)
    (replacement : Option Conn) : Option RelResult :=
  if conn.isOpen then
    if probeOk then
      (queue_put p.max_size p._pool conn).map
        (fun q => { pool := { p with _pool := q }, opens := 0, probes := 1 })
    else
      match replacement with
      | some c' =>
        (queue_put p.max_size p._pool c').map
          (fun q => { pool := { p with _pool := q }, opens := 1, probes := 1 })
      | none =>
        some { pool := { p with _active_connections := p._active_connections - 1 }
               opens := 1, probes := 1 }
  else
    some { pool := { p with _active_connections := p._active_connections - 1 }
           opens := 0, probes := 0 }

/-- `ConnectionPool.close_all` (source lines 132-143), under the lock: pops
every idle handle, calls `close()` on each one that is still open, clears
the queue and resets `_active_connections` to 0.  Returns the new pool
state together with the final states of the popped handles (each closed:
`close()` was called on the open ones, the rest were closed already). -/
def close_all (p : ConnectionPool) : ConnectionPool × List Conn :=
  ({ p with _pool := [], _active_connections := 0 },
   p._pool.map (fun c => { c with isOpen := false }))

/-- The dictionary returned by `ConnectionPool.stats` (source lines 148-154). -/
structure PoolStats where
  pool_size : Nat
  max_size : Nat
  active_connections : Int
  available_connections : Nat
  used_percentage : ℚ
deriving DecidableEq, Repr

/-- `ConnectionPool.stats` (source lines 145-154), under the lock: a pure
snapshot.  `used_percentage` is
`(self._active_connections / self.max_size) * 100`; when `max_size = 0`
Python raises `ZeroDivisionError`, modelled as `none`.  The constructor
performs no validation, so a pool with `max_size = 0` is constructible. -/
def stats (p : ConnectionPool) : Option PoolStats :=
  if p.max_size = 0 then none
  else
    some { pool_size := p._pool.length
           max_size := p.max_size
           active_connections := p._active_connections
           available_connections := p._pool.length
           used_percentage := ((p._active_connections : ℚ) / (p.max_size : ℚ)) * 100 }

/-- Modelled from the spec (section 5 and acquire step 3): the blocking wait
performed OUTSIDE the lock, so that a concurrent `release` may enqueue a
handle between polls; `feed k` is the handle, if any, that a release has
made available by poll tick `k`.  Compare with `wait_loop`, which embeds
the source (wait inside the lock, queue frozen). -/
def wait_loop_spec (feed : Nat → Option Conn) (elapsed : Nat) : Nat → Option Conn × Nat
  | 0 => (none, elapsed)
  | n + 1 =>
    match feed elapsed with
    | some c => (some c, elapsed)
    | none => wait_loop_spec feed (elapsed + 1) n

/-! ### Client-visible traces

A `World` is the pool together with the handles currently checked out by
callers; `run_op` interprets one client operation, and `run_trace` a
sequence.  Since every pool method holds the lock for its whole body, any
concurrent execution is equivalent to some serialization, so finite traces
of serialized operations are exactly the reachable states. -/

/-- One client operation, carrying the environment's answers for the
backend calls the operation may perform. -/
inductive Op where
  | acquire (create : Option Conn) (timeoutTicks : Nat)
  | release (i : Nat) (probeOk : Bool) (replacement : Option Conn)
  | closeAll
deriving DecidableEq, Repr

/-- Pool plus the multiset of handles currently held by callers. -/
structure World where
  pool : ConnectionPool
  held : List Conn
deriving DecidableEq, Repr

/-- Interpret one operation.  `release i` returns the `i`-th held handle, so
every release matches exactly one prior successful acquire; `none` means
the operation cannot complete (releasing a handle nobody holds, or a
blocked `Queue.put`). -/
def run_op (w : World) (op : Op) : Option World :=
  match op with
  | .acquire create t =>
    match (get_connection w.pool create t).outcome with
    | .ok c => some ⟨(get_connection w.pool create t).pool, w.held ++ [c]⟩
    | .error _ => some ⟨(get_connection w.pool create t).pool, w.held⟩
  | .release i probeOk repl =>
    match w.held[i]? with
    | some c =>
      match return_connection w.pool c probeOk repl with
      | some r => some ⟨r.pool, w.held.eraseIdx i⟩
      | none => none
    | none => none
  | .closeAll => some ⟨(close_all w.pool).1, w.held⟩

/-- Run a finite sequence of client operations from a world. -/
def run_trace (w : World) : List Op → Option World
  | [] => some w
  | op :: ops => (run_op w op).bind (fun w' => run_trace w' ops)

/-- The world of a freshly constructed pool: no handles checked out. -/
def fresh_world (max_size : Nat) (create : Nat → Option Conn) : World :=
  ⟨ConnectionPool.init max_size create, []⟩

/-- Warm-up oracle that always succeeds, handing out open handles with
consecutive ids. -/
def okCreate : Nat → Option Conn := fun i => some ⟨i, true⟩

/-! ### Helper lemmas -/

/-- Polling an empty (frozen) queue never yields a handle and consumes the
whole tick budget. -/
theorem wait_loop_empty (n : Nat) : wait_loop [] n = (none, n) := by
  induction n with
  | zero => rfl
  | succ n ih => simp [wait_loop, ih]

/-! ### The claims -/

/-- C1: the spec claims `active_connections + idle_count <= max_size` in
every reachable state.  The code violates it: `return_connection` never
decrements `_active_connections` on the healthy-probe path (source
lines 114-128 re-enqueue the handle without touching the counter), so on a
pool with `max_size = 1` whose warm-up created one handle, the trace
acquire-then-release leaves one idle handle AND `active_connections = 1`,
a sum of 2 > 1. -/
theorem c1_active_plus_idle_exceeds_max :
    ∃ w : World,
      run_trace (fresh_world 1 okCreate) [.acquire none 0, .release 0 true none] = some w ∧
      ¬ ((w.pool._pool.length : Int) + w.pool._active_connections ≤ (w.pool.max_size : Int)) :=
  ⟨⟨⟨1, [⟨0, true⟩], 1⟩, []⟩, by decide⟩

/-- C2: the spec claims `active_connections <= max_size` for all sequences
in which no caller holds more than one handle at a time.  The code
violates it: with `max_size = 1`, acquire (caller now holds one handle),
release it (healthy probe - the counter is not decremented), then acquire
again (pops the idle handle and increments again) gives
`active_connections = 2 > 1`, though every release matched one prior
acquire and no caller ever held two handles. -/
theorem c2_active_exceeds_max_single_handle_discipline :
    ∃ w : World,
      run_trace (fresh_world 1 okCreate)
        [.acquire none 0, .release 0 true none, .acquire none 0] = some w ∧
      ¬ (w.pool._active_connections ≤ (w.pool.max_size : Int)) :=
  ⟨⟨⟨1, [], 2⟩, [⟨0, true⟩]⟩, by decide⟩

/-- C3: the spec claims the blocking wait and the backend I/O happen outside
the lock, so a concurrent release can rescue a blocked acquire.  In the
source the whole body of `get_connection` - wait loop included - runs
inside `with self._lock:` (lines 75-104), and `return_connection` needs
that same lock (line 113), so no release can complete while an acquire
waits: on the saturated pool `max_size = 1`, `idle = []`,
`active_connections = 1`, the call always times out with the state
unchanged after consuming its full tick budget.  By contrast the
spec-modelled unlocked wait (`wait_loop_spec`), fed a handle released at
poll tick 0, returns that handle immediately. -/
theorem c3_wait_holds_lock_so_release_cannot_rescue :
    (get_connection ⟨1, [], 1⟩ none 5).outcome = .error .timeoutError ∧
    (get_connection ⟨1, [], 1⟩ none 5).pool = ⟨1, [], 1⟩ ∧
    (get_connection ⟨1, [], 1⟩ none 5).elapsed = 5 ∧
    wait_loop_spec (fun k => if k = 0 then some ⟨9, true⟩ else none) 0 5 =
      (some ⟨9, true⟩, 0) := by
  decide

/-- C4: `acquire(timeout=T)` on a saturated pool (idle empty,
`active_connections = max_size`) raises `TimeoutError` after the full
timeout (`elapsed = t` ticks, i.e. at least `T` seconds in the tick
model), returns no handle, makes no backend call, and leaves the pool
state exactly as it was.  The claim's proviso that no handle becomes
available during the wait holds automatically, since the lock held for
the whole call freezes the queue. -/
theorem c4_saturated_acquire_times_out (p : ConnectionPool) (create : Option Conn) (t : Nat)
    (hempty : p._pool = [])
    (hsat : p._active_connections = (p.max_size : Int)) :
    get_connection p create t =
      { outcome := .error .timeoutError, pool := p
        opens := 0, probes := 0, elapsed := t } := by
  simp [get_connection, hempty, hsat, wait_loop_empty]

theorem c4_saturated_acquire_times_out_witness :
    get_connection ⟨2, [], 2⟩ none 7 =
      { outcome := .error .timeoutError, pool := ⟨2, [], 2⟩
        opens := 0, probes := 0, elapsed := 7 } :=
  c4_saturated_acquire_times_out ⟨2, [], 2⟩ none 7 rfl (by decide)

/-- C5: when the idle buffer is empty, `active_connections < max_size` and
the backend open fails, `acquire` raises the connection-creation error
immediately: exactly one open attempt (`opens = 1`, not retried), no wait
(`elapsed = 0`), state unchanged.  Moreover every `acquire` call has
exactly one of three outcomes: a handle, the creation error, or the
timeout error. -/
theorem c5_creation_failure_raises_immediately (p : ConnectionPool) (t : Nat)
    (hempty : p._pool = [])
    (hlt : p._active_connections < (p.max_size : Int)) :
    get_connection p none t =
      { outcome := .error .creationError, pool := p
        opens := 1, probes := 0, elapsed := 0 } ∧
    ∀ (q : ConnectionPool) (create : Option Conn) (t' : Nat),
      (∃ c, (get_connection q create t').outcome = .ok c) ∨
      (get_connection q create t').outcome = .error .creationError ∨
      (get_connection q create t').outcome = .error .timeoutError := by
  constructor
  · simp [get_connection, hempty, hlt]
  · intro q create t'
    cases h : (get_connection q create t').outcome with
    | ok c => exact .inl ⟨c, rfl⟩
    | error e => cases e with
      | creationError => exact .inr (.inl rfl)
      | timeoutError => exact .inr (.inr rfl)

theorem c5_creation_failure_raises_immediately_witness :
    get_connection ⟨3, [], 1⟩ none 7 =
      { outcome := .error .creationError, pool := ⟨3, [], 1⟩
        opens := 1, probes := 0, elapsed := 0 } :=
  (c5_creation_failure_raises_immediately ⟨3, [], 1⟩ 7 rfl (by decide)).1

/-- C6: releasing an open handle whose probe fails either enqueues a
replacement (idle grows by one, exactly as on the successful-probe path,
`active_connections` untouched) or, when replacement creation also fails,
decrements `active_connections` by exactly 1 with nothing enqueued; in
both sub-cases the call returns normally (`some`, no exception).  The
hypothesis `p._pool.length < p.max_size` says the bounded queue has room,
which §4.1 of the spec notes always holds at a release in correct
operation. -/
theorem c6_failed_probe_replace_or_drop (p : ConnectionPool) (conn c' : Conn)
    (hopen : conn.isOpen = true)
    (hroom : p._pool.length < p.max_size) :
    return_connection p conn false (some c') =
      some { pool := { p with _pool := p._pool ++ [c'] }, opens := 1, probes := 1 } ∧
    return_connection p conn false none =
      some { pool := { p with _active_connections := p._active_connections - 1 }
             opens := 1, probes := 1 } ∧
    (return_connection p conn false (some c')).map (fun r => r.pool._pool.length) =
      (return_connection p conn true (some c')).map (fun r => r.pool._pool.length) := by
  have hput : ¬ (0 < p.max_size ∧ p.max_size ≤ p._pool.length) := by omega
  refine ⟨?_, ?_, ?_⟩ <;> simp [return_connection, queue_put, hopen, hput]

theorem c6_failed_probe_replace_or_drop_witness :
    return_connection ⟨2, [], 1⟩ ⟨0, true⟩ false (some ⟨5, true⟩) =
      some { pool := ⟨2, [⟨5, true⟩], 1⟩, opens := 1, probes := 1 } :=
  (c6_failed_probe_replace_or_drop ⟨2, [], 1⟩ ⟨0, true⟩ ⟨5, true⟩ rfl (by decide)).1

/-- C7: releasing a handle whose `open` flag is false decrements
`active_connections` by exactly 1, performs no probe and no backend open,
enqueues nothing, and leaves the idle buffer unchanged. -/
theorem c7_closed_handle_release_decrements (p : ConnectionPool) (conn : Conn)
    (probeOk : Bool) (replacement : Option Conn)
    (hclosed : conn.isOpen = false) :
    return_connection p conn probeOk replacement =
      some { pool := { p with _active_connections := p._active_connections - 1 }
             opens := 0, probes := 0 } ∧
    (return_connection p conn probeOk replacement).map (fun r => r.pool._pool) =
      some p._pool := by
  simp [return_connection, hclosed]

theorem c7_closed_handle_release_decrements_witness :
    return_connection ⟨2, [⟨1, true⟩], 1⟩ ⟨0, false⟩ true none =
      some { pool := ⟨2, [⟨1, true⟩], 0⟩, opens := 0, probes := 0 } :=
  (c7_closed_handle_release_decrements ⟨2, [⟨1, true⟩], 1⟩ ⟨0, false⟩ true none rfl).1

/-- C8: `acquire` on a non-empty idle buffer pops the oldest handle (the
list head; `queue_put` appends at the back, so the queue is FIFO),
returns it, increments `active_connections` by exactly 1, performs no
backend open (`opens = 0`), no health check (`probes = 0`), and does not
wait (`elapsed = 0`). -/
theorem c8_nonempty_idle_pops_fifo_no_backend (p : ConnectionPool) (c : Conn)
    (rest : List Conn) (create : Option Conn) (t : Nat)
    (hpool : p._pool = c :: rest) :
    get_connection p create t =
      { outcome := .ok c
        pool := { p with _pool := rest, _active_connections := p._active_connections + 1 }
        opens := 0, probes := 0, elapsed := 0 } := by
  simp [get_connection, hpool]

theorem c8_nonempty_idle_pops_fifo_no_backend_witness :
    get_connection ⟨2, [⟨0, true⟩, ⟨1, true⟩], 0⟩ none 5 =
      { outcome := .ok ⟨0, true⟩, pool := ⟨2, [⟨1, true⟩], 1⟩
        opens := 0, probes := 0, elapsed := 0 } :=
  c8_nonempty_idle_pops_fifo_no_backend ⟨2, [⟨0, true⟩, ⟨1, true⟩], 0⟩ ⟨0, true⟩
    [⟨1, true⟩] none 5 rfl

/-- C9: after `close_all` the idle buffer is empty, `active_connections` is
0, and every handle that was idle has been closed; a subsequent `stats`
call reports idle count 0 and `active_connections = 0` (for a pool with
positive `max_size`, which §4.1 of the spec requires of the
configuration; `max_size = 0` is the C10 corner where `stats` itself
raises). -/
theorem c9_close_all_empties_pool (p : ConnectionPool) (hmax : 0 < p.max_size) :
    (close_all p).1._pool = [] ∧
    (close_all p).1._active_connections = 0 ∧
    (∀ c ∈ (close_all p).2, c.isOpen = false) ∧
    (close_all p).2.length = p._pool.length ∧
    stats (close_all p).1 =
      some { pool_size := 0, max_size := p.max_size, active_connections := 0
             available_connections := 0, used_percentage := 0 } := by
  refine ⟨rfl, rfl, ?_, by simp [close_all], ?_⟩
  · intro c hc
    simp only [close_all, List.mem_map] at hc
    obtain ⟨a, -, rfl⟩ := hc
    rfl
  · simp [stats, close_all, Nat.pos_iff_ne_zero.mp hmax]

theorem c9_close_all_empties_pool_witness :
    stats (close_all ⟨2, [⟨0, true⟩, ⟨1, false⟩], 2⟩).1 =
      some { pool_size := 0, max_size := 2, active_connections := 0
             available_connections := 0, used_percentage := 0 } :=
  (c9_close_all_empties_pool ⟨2, [⟨0, true⟩, ⟨1, false⟩], 2⟩ (by decide)).2.2.2.2

/-- C10: `stats` divides `active_connections` by `max_size` with no guard:
for every pool with `max_size ≥ 1` it returns the snapshot (with the
utilization percentage `active_connections / max_size * 100`), but the
constructor does not validate `max_size`, so a pool built with
`max_size = 0` exists and its `stats` raises `ZeroDivisionError`
(modelled as `none`). -/
theorem c10_stats_division_unguarded :
    (∀ p : ConnectionPool, 0 < p.max_size →
      stats p =
        some { pool_size := p._pool.length, max_size := p.max_size
               active_connections := p._active_connections
               available_connections := p._pool.length
               used_percentage := ((p._active_connections : ℚ) / (p.max_size : ℚ)) * 100 }) ∧
    ∀ create : Nat → Option Conn, stats (ConnectionPool.init 0 create) = none := by
  constructor
  · intro p hp
    simp [stats, Nat.pos_iff_ne_zero.mp hp]
  · intro create
    rfl

theorem c10_stats_division_unguarded_witness :
    stats ⟨2, [], 1⟩ =
      some { pool_size := 0, max_size := 2, active_connections := 1
             available_connections := 0
             used_percentage := ((1 : ℚ) / (2 : ℚ)) * 100 } ∧
    stats (ConnectionPool.init 0 okCreate) = none :=
  ⟨c10_stats_division_unguarded.1 ⟨2, [], 1⟩ (by decide),
   c10_stats_division_unguarded.2 okCreate⟩
